import Mathlib

/-!
Verification of the SRS per-vhost connection admission policy evaluator
(`src/trunk/src/app/srs_app_security.cpp`): a shallow embedding of
`SrsSecurity::do_check`, `SrsSecurity::allow_check` and
`SrsSecurity::deny_check`, together with theorems about the admission
decisions they produce.

Modelling conventions:
* `SrsConfDirective` keeps only the fields the security code reads
  (`name`, `arg0()`, `arg1()`).
* `srs_error_t` values are pointers in C++ (`srs_success` is the null
  pointer); we model them as the inductive `SrsError`, where
  `srs_error_new` builds a leaf error and `srs_error_wrap` builds a node
  holding the wrapped error.  A value is "not `srs_success`" exactly when
  it is not the `success` constructor.
* The CIDR / IPv4 helper functions live in `srs_kernel_utility.cpp`,
  which is not part of the sources under examination; they are modelled
  from the spec's helper contracts (each such definition is marked
  `Modelled from the spec:`).
-/

/-- Connection kinds, from `SrsRtmpConnType` as used by the switch
statements in `allow_check` / `deny_check`. -/
inductive SrsRtmpConnType where
  | SrsRtmpConnUnknown
  | SrsRtmpConnPlay
  | SrsRtmpConnFMLEPublish
  | SrsRtmpConnFlashPublish
  | SrsRtmpConnHaivisionPublish
deriving DecidableEq, Repr

/-- One configuration directive, keeping the fields the security code
reads: `rule->name`, `rule->arg0()`, `rule->arg1()`. -/
structure SrsConfDirective where
  name : String
  arg0 : String
  arg1 : String
deriving DecidableEq, Repr

/-- `srs_error_t`: either the null pointer `srs_success`, or an error
object built by `srs_error_new` (code and formatted message) or by
`srs_error_wrap` (wrapped error and formatted message). -/
inductive SrsError where
  | success
  | errorNew (code : Nat) (msg : String)
  | errorWrap (wrapped : SrsError) (msg : String)
deriving DecidableEq, Repr

/-- The formatted messages carried by an error, outermost first
(`success` carries none). -/
def errMsgs : SrsError → List String
  | .success => []
  | .errorNew _ m => [m]
  | .errorWrap w m => m :: errMsgs w

/-- Error code `ERROR_SYSTEM_SECURITY` (from `srs_kernel_error.hpp`,
outside the examined sources; the numeric value is immaterial, the three
codes are only required to be distinct identifiers). -/
def ERROR_SYSTEM_SECURITY : Nat := 1
/-- Error code `ERROR_SYSTEM_SECURITY_DENY`. -/
def ERROR_SYSTEM_SECURITY_DENY : Nat := 2
/-- Error code `ERROR_SYSTEM_SECURITY_ALLOW`. -/
def ERROR_SYSTEM_SECURITY_ALLOW : Nat := 3

/-- Split a character list at every occurrence of `sep` (helper for the
spec-modelled CIDR / IPv4 parsing; structural recursion so that concrete
inputs evaluate). -/
def splitOnChar (sep : Char) : List Char → List (List Char)
  | [] => [[]]
  | c :: cs =>
    match splitOnChar sep cs with
    | [] => if c = sep then [[], []] else [[c]]
    | g :: gs => if c = sep then [] :: g :: gs else (c :: g) :: gs

/-- Decimal value of a digit list (helper for the spec-modelled parsing;
only meaningful when every character is a digit). -/
def digitsVal (cs : List Char) : Nat :=
  cs.foldl (fun acc c => acc * 10 + (c.toNat - 48)) 0

/-- Modelled from the spec: an IPv4 dotted-quad octet — one to three
decimal digits with value at most 255 (helper for IPv4 literal
validation, `srs_kernel_utility`). -/
def parseOctet (cs : List Char) : Option Nat :=
  if cs ≠ [] ∧ cs.length ≤ 3 ∧ cs.all Char.isDigit then
    if digitsVal cs ≤ 255 then some (digitsVal cs) else none
  else none

/-- Modelled from the spec: numeric value of an IPv4 literal
(`srs_kernel_utility` is not under the examined sources; the spec treats
IPv4 literal validation and numeric conversion as a pure leaf helper).
Returns `none` when the string is not a valid IPv4 literal. -/
def srs_ipv4_to_num (s : String) : Option Nat :=
  match (splitOnChar '.' s.data).mapM parseOctet with
  | some [a, b, c, d] => some (((a * 256 + b) * 256 + c) * 256 + d)
  | _ => none

/-- Modelled from the spec: IPv4 literal validation (`srs_is_ipv4`,
`srs_kernel_utility`): the string is a valid dotted-quad IPv4 literal. -/
def srs_is_ipv4 (s : String) : Bool :=
  (srs_ipv4_to_num s).isSome

/-- Modelled from the spec: the CIDR split helper `srs_get_cidr_ipv4`
(`srs_kernel_utility`): the network portion of a `network/mask` string,
i.e. everything before the first `/` (the whole string if there is no
`/`). -/
def srs_get_cidr_ipv4 (s : String) : String :=
  String.mk (s.data.takeWhile (fun c => c ≠ '/'))

/-- Modelled from the spec: the CIDR split helper `srs_get_cidr_mask`
(`srs_kernel_utility`): the mask portion of a `network/mask` string,
i.e. everything after the first `/` (empty if there is no `/`). -/
def srs_get_cidr_mask (s : String) : String :=
  match s.data.dropWhile (fun c => c ≠ '/') with
  | [] => ""
  | _ :: rest => String.mk rest

/-- Modelled from the spec: numeric value of a CIDR mask, which is either
a bit count (`network/bits`, 0..32 decimal) or a dotted mask
(`network/mask`). -/
def maskToNum (mask : String) : Option Nat :=
  if mask.data ≠ [] ∧ mask.data.all Char.isDigit then
    if digitsVal mask.data ≤ 32 then
      some (2 ^ 32 - 2 ^ (32 - digitsVal mask.data))
    else none
  else srs_ipv4_to_num mask

/-- Modelled from the spec: `srs_ipv4_within_mask ip network mask`
(`srs_kernel_utility`): `ip` falls within the IPv4 range described by
`network`/`mask`.  Both `ip` and `network` must be valid IPv4 literals
and `mask` a valid bit count or dotted mask; otherwise no range
membership holds. -/
def srs_ipv4_within_mask (ip network mask : String) : Bool :=
  match srs_ipv4_to_num ip, srs_ipv4_to_num network, maskToNum mask with
  | some ipn, some netn, some m => (ipn &&& m) == (netn &&& m)
  | _, _, _ => false

/-- The per-rule target test shared by `allow_check` and `deny_check`
(`srs_app_security.cpp` lines 99-136 / 159-196): the rule's `arg1()`
matches the request `ip` iff `arg1 == "all"`, or `arg1 == ip`, or the
network portion of `arg1` is a valid IPv4 literal, `arg1` carries a
non-empty mask, and `ip` is within that network/mask range. -/
def targetMatch (arg1 ip : String) : Bool :=
  let cidr_ipv4 := srs_get_cidr_ipv4 arg1
  let cidr_mask := srs_get_cidr_mask arg1
  let is_ipv4 := srs_is_ipv4 cidr_ipv4
  let is_cidr_mask := cidr_mask != ""
  let within_mask := srs_ipv4_within_mask ip cidr_ipv4 cidr_mask
  (arg1 == "all" || arg1 == ip) || (is_ipv4 && is_cidr_mask && within_mask)

/-- The kind dispatch of the switch statements in `allow_check` /
`deny_check`: a `Play` connection only considers rules with
`arg0() == "play"`, the three publish variants only rules with
`arg0() == "publish"`, and `SrsRtmpConnUnknown` (the default case)
considers no rule at all. -/
def kindMatches (type : SrsRtmpConnType) (arg0 : String) : Bool :=
  match type with
  | .SrsRtmpConnPlay => arg0 == "play"
  | .SrsRtmpConnFMLEPublish => arg0 == "publish"
  | .SrsRtmpConnFlashPublish => arg0 == "publish"
  | .SrsRtmpConnHaivisionPublish => arg0 == "publish"
  | .SrsRtmpConnUnknown => false

/-- The value `allow_check` returns after its loop completes without a
match (`srs_app_security.cpp` lines 144-147). -/
def allowFinal (allow_rules deny_rules : Nat) : SrsError :=
  if allow_rules > 0 ∨ deny_rules + allow_rules = 0 then
    .errorNew ERROR_SYSTEM_SECURITY_ALLOW
      ("not allowed by any of " ++ toString allow_rules ++ "/" ++
        toString deny_rules ++ " rules")
  else .success

/-- The loop of `SrsSecurity::allow_check` (lines 88-142), with the two
counters as explicit parameters: rules not named `allow` are skipped
(those named `deny` bump `deny_rules`); an `allow` rule bumps
`allow_rules` and, when its kind and target both match, returns
`srs_success` at once. -/
def allow_check_loop (type : SrsRtmpConnType) (ip : String) :
    List SrsConfDirective → Nat → Nat → SrsError
  | [], allow_rules, deny_rules => allowFinal allow_rules deny_rules
  | rule :: rest, allow_rules, deny_rules =>
    if rule.name ≠ "allow" then
      if rule.name = "deny" then
        allow_check_loop type ip rest allow_rules (deny_rules + 1)
      else
        allow_check_loop type ip rest allow_rules deny_rules
    else if kindMatches type rule.arg0 && targetMatch rule.arg1 ip then
      SrsError.success
    else
      allow_check_loop type ip rest (allow_rules + 1) deny_rules

/-- `SrsSecurity::allow_check` (lines 83-148): both counters start at
zero. -/
def allow_check (rules : List SrsConfDirective) (type : SrsRtmpConnType)
    (ip : String) : SrsError :=
  allow_check_loop type ip rules 0 0

/-- `SrsSecurity::deny_check` (lines 150-205): scan for the first rule
named `deny` whose kind and target both match; on a match return the
`ERROR_SYSTEM_SECURITY_DENY` error carrying the rule's target, otherwise
`srs_success`. -/
def deny_check (rules : List SrsConfDirective) (type : SrsRtmpConnType)
    (ip : String) : SrsError :=
  match rules with
  | [] => .success
  | rule :: rest =>
    if rule.name ≠ "deny" then deny_check rest type ip
    else if kindMatches type rule.arg0 && targetMatch rule.arg1 ip then
      .errorNew ERROR_SYSTEM_SECURITY_DENY ("deny by rule<" ++ rule.arg1 ++ ">")
    else deny_check rest type ip

/-- `SrsSecurity::do_check` (lines 54-81).  The `rules` pointer may be
null (`none`).  Note the source wraps `err` — which still holds
`srs_success` at that point — not `deny_err` / `allow_err`, and resets
`err` to `srs_success` whenever the deny scan failed but the allow scan
returned `srs_success`. -/
def do_check (rules : Option (List SrsConfDirective)) (type : SrsRtmpConnType)
    (ip : String) : SrsError :=
  match rules with
  | none => .errorNew ERROR_SYSTEM_SECURITY ("default deny for " ++ ip)
  | some rs =>
    let deny_err := deny_check rs type ip
    let allow_err := allow_check rs type ip
    let err : SrsError :=
      if deny_err ≠ SrsError.success then
        .errorWrap .success ("for " ++ ip)
      else .success
    let err : SrsError :=
      if allow_err ≠ SrsError.success then
        .errorWrap err ("for " ++ ip)
      else err
    if deny_err ≠ SrsError.success ∧ allow_err = SrsError.success then
      SrsError.success
    else err

/-- A rule that the allow scan matches for this request: named `allow`,
kind matches, target matches. -/
def isAllowMatch (type : SrsRtmpConnType) (ip : String)
    (r : SrsConfDirective) : Bool :=
  r.name == "allow" && (kindMatches type r.arg0 && targetMatch r.arg1 ip)

/-- A rule that the deny scan matches for this request: named `deny`,
kind matches, target matches. -/
def isDenyMatch (type : SrsRtmpConnType) (ip : String)
    (r : SrsConfDirective) : Bool :=
  r.name == "deny" && (kindMatches type r.arg0 && targetMatch r.arg1 ip)

/-- `allow_rules` as counted over a whole rule list: the rules named
`allow`, whatever their kind. -/
def countAllow (rules : List SrsConfDirective) : Nat :=
  (rules.filter (fun r => r.name == "allow")).length

/-- `deny_rules` as counted over a whole rule list: the rules named
`deny`, whatever their kind. -/
def countDeny (rules : List SrsConfDirective) : Nat :=
  (rules.filter (fun r => r.name == "deny")).length

lemma allowFinal_success_iff (a d : Nat) :
    allowFinal a d = SrsError.success ↔ a = 0 ∧ 0 < d := by
  unfold allowFinal
  split <;> simp_all <;> omega

lemma countAllow_nil : countAllow [] = 0 := rfl

lemma countDeny_nil : countDeny [] = 0 := rfl

lemma countAllow_cons (r : SrsConfDirective) (rs : List SrsConfDirective) :
    countAllow (r :: rs) = (if r.name = "allow" then 1 else 0) + countAllow rs := by
  unfold countAllow
  rw [List.filter_cons]
  by_cases h : r.name = "allow" <;> simp [h, Nat.add_comm]

lemma countDeny_cons (r : SrsConfDirective) (rs : List SrsConfDirective) :
    countDeny (r :: rs) = (if r.name = "deny" then 1 else 0) + countDeny rs := by
  unfold countDeny
  rw [List.filter_cons]
  by_cases h : r.name = "deny" <;> simp [h, Nat.add_comm]

lemma allow_check_loop_no_match (type : SrsRtmpConnType) (ip : String)
    (rs : List SrsConfDirective)
    (h : ∀ r ∈ rs, isAllowMatch type ip r = false) :
    ∀ a d, allow_check_loop type ip rs a d =
      allowFinal (a + countAllow rs) (d + countDeny rs) := by
  induction rs with
  | nil => intro a d; simp [allow_check_loop, countAllow_nil, countDeny_nil]
  | cons r rest ih =>
    intro a d
    have hr := h r (by simp)
    have hrest := ih (fun x hx => h x (List.mem_cons_of_mem _ hx))
    by_cases hname : r.name = "allow"
    · have hmatch : (kindMatches type r.arg0 && targetMatch r.arg1 ip) = false := by
        simpa [isAllowMatch, hname] using hr
      have hA : a + countAllow (r :: rest) = (a + 1) + countAllow rest := by
        rw [countAllow_cons, if_pos hname]; omega
      have hD : d + countDeny (r :: rest) = d + countDeny rest := by
        have hd' : r.name ≠ "deny" := by simp [hname]
        rw [countDeny_cons, if_neg hd']; omega
      rw [hA, hD, ← hrest (a + 1) d]
      simp only [allow_check_loop]
      rw [if_neg (by simp [hname]), if_neg (by simp [hmatch])]
    · by_cases hdeny : r.name = "deny"
      · have hA : a + countAllow (r :: rest) = a + countAllow rest := by
          rw [countAllow_cons, if_neg hname]; omega
        have hD : d + countDeny (r :: rest) = (d + 1) + countDeny rest := by
          rw [countDeny_cons, if_pos hdeny]; omega
        rw [hA, hD, ← hrest a (d + 1)]
        simp only [allow_check_loop]
        rw [if_pos hname, if_pos hdeny]
      · have hA : a + countAllow (r :: rest) = a + countAllow rest := by
          rw [countAllow_cons, if_neg hname]; omega
        have hD : d + countDeny (r :: rest) = d + countDeny rest := by
          rw [countDeny_cons, if_neg hdeny]; omega
        rw [hA, hD, ← hrest a d]
        simp only [allow_check_loop]
        rw [if_pos hname, if_neg hdeny]

lemma allow_check_loop_match (type : SrsRtmpConnType) (ip : String)
    (rs : List SrsConfDirective)
    (h : ∃ r ∈ rs, isAllowMatch type ip r = true) :
    ∀ a d, allow_check_loop type ip rs a d = SrsError.success := by
  induction rs with
  | nil => simp at h
  | cons r rest ih =>
    intro a d
    rcases h with ⟨x, hx, hmx⟩
    rcases List.mem_cons.mp hx with rfl | hx'
    · have hmx' : x.name = "allow" ∧ kindMatches type x.arg0 = true ∧
          targetMatch x.arg1 ip = true := by
        simpa [isAllowMatch] using hmx
      simp [allow_check_loop, hmx'.1, hmx'.2.1, hmx'.2.2]
    · have ih' := ih ⟨x, hx', hmx⟩
      by_cases hname : r.name = "allow"
      · by_cases hm : (kindMatches type r.arg0 && targetMatch r.arg1 ip) = true
        · simp [allow_check_loop, hname, hm]
        · simp [allow_check_loop, hname, hm, ih']
      · by_cases hdeny : r.name = "deny" <;>
          simp [allow_check_loop, hname, hdeny, ih']

lemma allow_check_success_iff (rs : List SrsConfDirective)
    (type : SrsRtmpConnType) (ip : String) :
    allow_check rs type ip = SrsError.success ↔
      (∃ r ∈ rs, isAllowMatch type ip r = true) ∨
        (countAllow rs = 0 ∧ 0 < countDeny rs) := by
  by_cases h : ∃ r ∈ rs, isAllowMatch type ip r = true
  · simp [allow_check, allow_check_loop_match type ip rs h, h]
  · have h' : ∀ r ∈ rs, isAllowMatch type ip r = false := by
      intro r hr
      cases hb : isAllowMatch type ip r with
      | false => rfl
      | true => exact absurd ⟨r, hr, hb⟩ h
    rw [allow_check, allow_check_loop_no_match type ip rs h' 0 0,
      allowFinal_success_iff]
    simp [h]

lemma deny_check_eq_find (rs : List SrsConfDirective) (type : SrsRtmpConnType)
    (ip : String) :
    deny_check rs type ip =
      match rs.find? (isDenyMatch type ip) with
      | some r => SrsError.errorNew ERROR_SYSTEM_SECURITY_DENY
          ("deny by rule<" ++ r.arg1 ++ ">")
      | none => SrsError.success := by
  induction rs with
  | nil => simp [deny_check]
  | cons r rest ih =>
    by_cases hname : r.name = "deny"
    · cases hm : (kindMatches type r.arg0 && targetMatch r.arg1 ip) with
      | true =>
        have hd : isDenyMatch type ip r = true := by
          simp [isDenyMatch, hname, hm]
        rw [List.find?_cons_of_pos _ hd]
        simp [deny_check, hname, hm]
      | false =>
        have hd : ¬ (isDenyMatch type ip r = true) := by
          simp [isDenyMatch, hm]
        rw [List.find?_cons_of_neg _ hd]
        simp only [deny_check, hname, ne_eq, not_true_eq_false, if_false, hm,
          Bool.false_eq_true, if_neg, not_false_eq_true]
        exact ih
    · have hd : ¬ (isDenyMatch type ip r = true) := by
        simp [isDenyMatch, hname]
      rw [List.find?_cons_of_neg _ hd]
      simp only [deny_check, hname, ne_eq, not_false_eq_true, if_true]
      exact ih

lemma deny_check_success_iff (rs : List SrsConfDirective)
    (type : SrsRtmpConnType) (ip : String) :
    deny_check rs type ip = SrsError.success ↔
      ∀ r ∈ rs, isDenyMatch type ip r = false := by
  rw [deny_check_eq_find]
  cases hf : rs.find? (isDenyMatch type ip) with
  | none =>
    constructor
    · intro _ r hr
      simpa using List.find?_eq_none.mp hf r hr
    · intro _
      rfl
  | some r =>
    constructor
    · intro hcontra
      simp at hcontra
    · intro hall
      have hp := List.find?_some hf
      have hmem := List.mem_of_find?_eq_some hf
      rw [hall r hmem] at hp
      simp at hp

lemma do_check_some_success_iff (rs : List SrsConfDirective)
    (type : SrsRtmpConnType) (ip : String) :
    do_check (some rs) type ip = SrsError.success ↔
      allow_check rs type ip = SrsError.success := by
  unfold do_check
  by_cases hd : deny_check rs type ip = SrsError.success <;>
    by_cases ha : allow_check rs type ip = SrsError.success <;>
      simp [hd, ha]

lemma kindMatches_fmle_eq_flash (a : String) :
    kindMatches SrsRtmpConnType.SrsRtmpConnFMLEPublish a =
      kindMatches SrsRtmpConnType.SrsRtmpConnFlashPublish a := rfl

lemma kindMatches_flash_eq_haivision (a : String) :
    kindMatches SrsRtmpConnType.SrsRtmpConnFlashPublish a =
      kindMatches SrsRtmpConnType.SrsRtmpConnHaivisionPublish a := rfl

lemma deny_check_congr (t1 t2 : SrsRtmpConnType)
    (h : ∀ a, kindMatches t1 a = kindMatches t2 a)
    (rs : List SrsConfDirective) (ip : String) :
    deny_check rs t1 ip = deny_check rs t2 ip := by
  induction rs with
  | nil => rfl
  | cons r rest ih =>
    unfold deny_check
    rw [h r.arg0, ih]

lemma allow_check_loop_congr (t1 t2 : SrsRtmpConnType) (ip : String)
    (h : ∀ a, kindMatches t1 a = kindMatches t2 a) :
    ∀ (rs : List SrsConfDirective) (a d : Nat),
      allow_check_loop t1 ip rs a d = allow_check_loop t2 ip rs a d := by
  intro rs
  induction rs with
  | nil => intro a d; rfl
  | cons r rest ih =>
    intro a d
    unfold allow_check_loop
    rw [h r.arg0]
    simp only [ih]

lemma allow_check_congr (t1 t2 : SrsRtmpConnType)
    (h : ∀ a, kindMatches t1 a = kindMatches t2 a)
    (rs : List SrsConfDirective) (ip : String) :
    allow_check rs t1 ip = allow_check rs t2 ip :=
  allow_check_loop_congr t1 t2 ip h rs 0 0

lemma do_check_congr (t1 t2 : SrsRtmpConnType)
    (h : ∀ a, kindMatches t1 a = kindMatches t2 a)
    (rules : Option (List SrsConfDirective)) (ip : String) :
    do_check rules t1 ip = do_check rules t2 ip := by
  cases rules with
  | none => rfl
  | some rs =>
    simp only [do_check]
    rw [deny_check_congr t1 t2 h rs ip, allow_check_congr t1 t2 h rs ip]

lemma countAllow_perm {rs1 rs2 : List SrsConfDirective} (h : rs1.Perm rs2) :
    countAllow rs1 = countAllow rs2 :=
  (h.filter _).length_eq

lemma countDeny_perm {rs1 rs2 : List SrsConfDirective} (h : rs1.Perm rs2) :
    countDeny rs1 = countDeny rs2 :=
  (h.filter _).length_eq

lemma countAllow_append (rs1 rs2 : List SrsConfDirective) :
    countAllow (rs1 ++ rs2) = countAllow rs1 + countAllow rs2 := by
  simp [countAllow, List.filter_append]

lemma countDeny_append (rs1 rs2 : List SrsConfDirective) :
    countDeny (rs1 ++ rs2) = countDeny rs1 + countDeny rs2 := by
  simp [countDeny, List.filter_append]

lemma countAllow_pos_iff (rs : List SrsConfDirective) :
    0 < countAllow rs ↔ ∃ r ∈ rs, r.name = "allow" := by
  unfold countAllow
  rw [List.length_pos]
  constructor
  · intro hne
    rcases List.exists_mem_of_ne_nil _ hne with ⟨x, hx⟩
    have hx' := List.mem_filter.mp hx
    exact ⟨x, hx'.1, by simpa using hx'.2⟩
  · rintro ⟨r, hr, hname⟩
    intro hnil
    have : r ∈ List.filter (fun r => r.name == "allow") rs :=
      List.mem_filter.mpr ⟨hr, by simp [hname]⟩
    simp [hnil] at this

lemma countDeny_pos_iff (rs : List SrsConfDirective) :
    0 < countDeny rs ↔ ∃ r ∈ rs, r.name = "deny" := by
  unfold countDeny
  rw [List.length_pos]
  constructor
  · intro hne
    rcases List.exists_mem_of_ne_nil _ hne with ⟨x, hx⟩
    have hx' := List.mem_filter.mp hx
    exact ⟨x, hx'.1, by simpa using hx'.2⟩
  · rintro ⟨r, hr, hname⟩
    intro hnil
    have : r ∈ List.filter (fun r => r.name == "deny") rs :=
      List.mem_filter.mpr ⟨hr, by simp [hname]⟩
    simp [hnil] at this

lemma nil_of_counts_zero (rs : List SrsConfDirective)
    (h : ∀ r ∈ rs, r.name = "allow" ∨ r.name = "deny")
    (hA : countAllow rs = 0) (hD : countDeny rs = 0) : rs = [] := by
  cases rs with
  | nil => rfl
  | cons r rest =>
    exfalso
    rcases h r (by simp) with hr | hr
    · have := (countAllow_pos_iff (r :: rest)).mpr ⟨r, by simp, hr⟩
      omega
    · have := (countDeny_pos_iff (r :: rest)).mpr ⟨r, by simp, hr⟩
      omega

/-- Claim C1: for every rule set, connection kind and address, if the
deny scan finds a matching deny rule and the allow scan finds a matching
allow rule for the same request, `do_check` returns `srs_success`
(ALLOW): an explicit allow-rule match always overrides a deny-rule
match. -/
theorem claim_c1_allow_overrides_deny (rs : List SrsConfDirective)
    (type : SrsRtmpConnType) (ip : String)
    (_hdeny : ∃ r ∈ rs, isDenyMatch type ip r = true)
    (hallow : ∃ r ∈ rs, isAllowMatch type ip r = true) :
    do_check (some rs) type ip = SrsError.success := by
  rw [do_check_some_success_iff, allow_check_success_iff]
  exact Or.inl hallow

theorem claim_c1_witness :
    (∃ r ∈ [(⟨"deny", "publish", "10.0.0.5"⟩ : SrsConfDirective),
        ⟨"allow", "publish", "10.0.0.5"⟩],
      isDenyMatch SrsRtmpConnType.SrsRtmpConnFMLEPublish "10.0.0.5" r = true) ∧
    (∃ r ∈ [(⟨"deny", "publish", "10.0.0.5"⟩ : SrsConfDirective),
        ⟨"allow", "publish", "10.0.0.5"⟩],
      isAllowMatch SrsRtmpConnType.SrsRtmpConnFMLEPublish "10.0.0.5" r = true) ∧
    do_check (some [⟨"deny", "publish", "10.0.0.5"⟩, ⟨"allow", "publish", "10.0.0.5"⟩])
      SrsRtmpConnType.SrsRtmpConnFMLEPublish "10.0.0.5" = SrsError.success :=
  ⟨by decide, by decide,
    claim_c1_allow_overrides_deny _ _ _ (by decide) (by decide)⟩

/-- Claim C2: whenever the rule set contains at least one rule named
`allow` (of any kind), or no allow/deny rules at all, and no allow rule
whose kind matches the request matches the address, `allow_check`
returns the hard failure `ERROR_SYSTEM_SECURITY_ALLOW` carrying the
`allowCount`/`denyCount` totals; moreover appending a kind-mismatched
allow rule still increments `allowCount` in that failure without ever
contributing a match. -/
theorem claim_c2_whitelist_hard_failure (rs : List SrsConfDirective)
    (type : SrsRtmpConnType) (ip : String)
    (hmode : 0 < countAllow rs ∨ countAllow rs + countDeny rs = 0)
    (hnomatch : ∀ r ∈ rs, isAllowMatch type ip r = false) :
    allow_check rs type ip =
      SrsError.errorNew ERROR_SYSTEM_SECURITY_ALLOW
        ("not allowed by any of " ++ toString (countAllow rs) ++ "/" ++
          toString (countDeny rs) ++ " rules") ∧
    ∀ r : SrsConfDirective, r.name = "allow" →
      kindMatches type r.arg0 = false →
      allow_check (rs ++ [r]) type ip =
        SrsError.errorNew ERROR_SYSTEM_SECURITY_ALLOW
          ("not allowed by any of " ++ toString (countAllow rs + 1) ++ "/" ++
            toString (countDeny rs) ++ " rules") := by
  constructor
  · rw [allow_check, allow_check_loop_no_match type ip rs hnomatch 0 0]
    unfold allowFinal
    rw [if_pos (by omega)]
    simp
  · intro r hr hk
    have hno' : ∀ x ∈ rs ++ [r], isAllowMatch type ip x = false := by
      intro x hx
      rcases List.mem_append.mp hx with hx1 | hx2
      · exact hnomatch x hx1
      · have hxr : x = r := by simpa using hx2
        subst hxr
        simp [isAllowMatch, hk]
    have h1 : countAllow [r] = 1 := by simp [countAllow, hr]
    have h2 : countDeny [r] = 0 := by simp [countDeny, hr]
    rw [allow_check, allow_check_loop_no_match type ip _ hno' 0 0,
      countAllow_append, countDeny_append, h1, h2]
    unfold allowFinal
    rw [if_pos (by omega)]
    simp

theorem claim_c2_witness :
    (0 < countAllow [(⟨"allow", "play", "all"⟩ : SrsConfDirective)] ∨
      countAllow [(⟨"allow", "play", "all"⟩ : SrsConfDirective)] +
        countDeny [(⟨"allow", "play", "all"⟩ : SrsConfDirective)] = 0) ∧
    allow_check [⟨"allow", "play", "all"⟩]
        SrsRtmpConnType.SrsRtmpConnFMLEPublish "1.2.3.4" =
      SrsError.errorNew ERROR_SYSTEM_SECURITY_ALLOW
        "not allowed by any of 1/0 rules" ∧
    allow_check ([(⟨"allow", "play", "all"⟩ : SrsConfDirective)] ++
          [⟨"allow", "play", "5.6.7.8"⟩])
        SrsRtmpConnType.SrsRtmpConnFMLEPublish "1.2.3.4" =
      SrsError.errorNew ERROR_SYSTEM_SECURITY_ALLOW
        "not allowed by any of 2/0 rules" :=
  ⟨by decide,
    (claim_c2_whitelist_hard_failure _ _ _ (by decide) (by decide)).1,
    (claim_c2_whitelist_hard_failure _ _ _ (by decide) (by decide)).2
      ⟨"allow", "play", "5.6.7.8"⟩ (by decide) (by decide)⟩

/-- Claim C3: for a rule set containing only deny rules and no allow
rules, and a request whose address matches no applicable deny rule, the
final decision is ALLOW (blacklist mode: the allow scan soft-passes). -/
theorem claim_c3_blacklist_soft_pass (rs : List SrsConfDirective)
    (type : SrsRtmpConnType) (ip : String)
    (hallow0 : countAllow rs = 0) (hdeny0 : 0 < countDeny rs)
    (_hnodeny : ∀ r ∈ rs, isDenyMatch type ip r = false) :
    do_check (some rs) type ip = SrsError.success := by
  rw [do_check_some_success_iff, allow_check_success_iff]
  exact Or.inr ⟨hallow0, hdeny0⟩

theorem claim_c3_witness :
    countAllow [(⟨"deny", "play", "10.0.0.0/8"⟩ : SrsConfDirective)] = 0 ∧
    0 < countDeny [(⟨"deny", "play", "10.0.0.0/8"⟩ : SrsConfDirective)] ∧
    (∀ r ∈ [(⟨"deny", "play", "10.0.0.0/8"⟩ : SrsConfDirective)],
      isDenyMatch SrsRtmpConnType.SrsRtmpConnPlay "192.168.1.1" r = false) ∧
    do_check (some [⟨"deny", "play", "10.0.0.0/8"⟩])
      SrsRtmpConnType.SrsRtmpConnPlay "192.168.1.1" = SrsError.success :=
  ⟨by decide, by decide, by decide,
    claim_c3_blacklist_soft_pass _ _ _ (by decide) (by decide) (by decide)⟩

/-- Claim C4: with no rule set configured (null `rules` pointer, as
distinct from an empty list), `do_check` returns the
`ERROR_SYSTEM_SECURITY` deny whose reason is `default deny for <ip>`,
for every connection kind and address. -/
theorem claim_c4_default_deny (type : SrsRtmpConnType) (ip : String) :
    do_check none type ip =
      SrsError.errorNew ERROR_SYSTEM_SECURITY ("default deny for " ++ ip) := rfl

/-- Claim C5 (code bug evidence): a present-but-empty rule set does yield
DENY, but not with the reason the claim states.  `allow_check` builds
the `not allowed by any of 0/0 rules` diagnostic, yet `do_check` wraps
`err` — still `srs_success` at that point — instead of `allow_err`, so
the error actually returned carries only the message `for 127.0.0.1`. -/
theorem claim_c5_empty_ruleset_reason_dropped :
    do_check (some []) SrsRtmpConnType.SrsRtmpConnPlay "127.0.0.1" =
      SrsError.errorWrap SrsError.success "for 127.0.0.1" ∧
    do_check (some []) SrsRtmpConnType.SrsRtmpConnPlay "127.0.0.1" ≠
      SrsError.success ∧
    allow_check [] SrsRtmpConnType.SrsRtmpConnPlay "127.0.0.1" =
      SrsError.errorNew ERROR_SYSTEM_SECURITY_ALLOW
        "not allowed by any of 0/0 rules" ∧
    errMsgs (do_check (some []) SrsRtmpConnType.SrsRtmpConnPlay "127.0.0.1") =
      ["for 127.0.0.1"] :=
  ⟨by decide, by decide, by decide, by decide⟩

/-- Claim C6 (code bug evidence): with the deny-only rule set
`[{deny, publish, all}]` and a publish request from `10.0.0.1`, the deny
scan matches (producing the `deny by rule<all>` diagnostic) and the
allow scan matches no allow rule, yet `do_check` returns `srs_success`
(ALLOW): the allow-overrides-deny branch fires on the deny-only soft
pass (`allow_err == srs_success`) even though no allow rule exists, and
the deny diagnostic is discarded. -/
theorem claim_c6_deny_match_overridden_by_soft_pass :
    deny_check [⟨"deny", "publish", "all"⟩]
        SrsRtmpConnType.SrsRtmpConnFMLEPublish "10.0.0.1" =
      SrsError.errorNew ERROR_SYSTEM_SECURITY_DENY "deny by rule<all>" ∧
    (¬ ∃ r ∈ [(⟨"deny", "publish", "all"⟩ : SrsConfDirective)],
      isAllowMatch SrsRtmpConnType.SrsRtmpConnFMLEPublish "10.0.0.1" r = true) ∧
    do_check (some [⟨"deny", "publish", "all"⟩])
        SrsRtmpConnType.SrsRtmpConnFMLEPublish "10.0.0.1" =
      SrsError.success := by
  refine ⟨by decide, by decide, by decide⟩

/-- Claim C7: the masked-range branch of the target match predicate
requires a valid IPv4 request address (and, in the source, a valid IPv4
network portion of the target), so a non-IPv4 request address can match
a target only by the literal `all` or by exact string equality. -/
theorem claim_c7_non_ipv4_no_cidr_match (target ip : String)
    (h : srs_is_ipv4 ip = false) :
    targetMatch target ip = true ↔ (target = "all" ∨ target = ip) := by
  have hnum : srs_ipv4_to_num ip = none := by
    cases he : srs_ipv4_to_num ip with
    | none => rfl
    | some v =>
      rw [srs_is_ipv4, he] at h
      simp at h
  have hw : ∀ net mask, srs_ipv4_within_mask ip net mask = false := by
    intro net mask
    unfold srs_ipv4_within_mask
    rw [hnum]
  simp [targetMatch, hw]

theorem claim_c7_witness :
    srs_is_ipv4 "fe80::1" = false ∧
    (targetMatch "10.0.0.0/8" "fe80::1" = true ↔
      ("10.0.0.0/8" : String) = "all" ∨ ("10.0.0.0/8" : String) = "fe80::1") :=
  ⟨by decide, claim_c7_non_ipv4_no_cidr_match "10.0.0.0/8" "fe80::1" (by decide)⟩

/-- Claim C8: permuting the rule set never changes whether `do_check`
admits the request; ordering affects only which rule is reported, not
the admit/deny outcome. -/
theorem claim_c8_order_invariance (rs1 rs2 : List SrsConfDirective)
    (type : SrsRtmpConnType) (ip : String) (h : rs1.Perm rs2) :
    (do_check (some rs1) type ip = SrsError.success ↔
      do_check (some rs2) type ip = SrsError.success) := by
  rw [do_check_some_success_iff, do_check_some_success_iff,
    allow_check_success_iff, allow_check_success_iff,
    countAllow_perm h, countDeny_perm h]
  constructor
  · rintro (⟨r, hr, hm⟩ | hc)
    · exact Or.inl ⟨r, h.mem_iff.mp hr, hm⟩
    · exact Or.inr hc
  · rintro (⟨r, hr, hm⟩ | hc)
    · exact Or.inl ⟨r, h.mem_iff.mpr hr, hm⟩
    · exact Or.inr hc

theorem claim_c8_witness :
    ([(⟨"allow", "play", "10.0.0.1"⟩ : SrsConfDirective),
        ⟨"deny", "play", "all"⟩].Perm
      [⟨"deny", "play", "all"⟩, ⟨"allow", "play", "10.0.0.1"⟩]) ∧
    (do_check (some [⟨"allow", "play", "10.0.0.1"⟩, ⟨"deny", "play", "all"⟩])
        SrsRtmpConnType.SrsRtmpConnPlay "10.0.0.1" = SrsError.success ↔
      do_check (some [⟨"deny", "play", "all"⟩, ⟨"allow", "play", "10.0.0.1"⟩])
        SrsRtmpConnType.SrsRtmpConnPlay "10.0.0.1" = SrsError.success) :=
  ⟨List.Perm.swap _ _ _,
    claim_c8_order_invariance _ _ _ _ (List.Perm.swap _ _ _)⟩

/-- Claim C9: the three publish connection kinds (FMLE publish, flash
publish, Haivision publish) produce identical decisions for every rule
set and address; each of them matches exactly the rules whose kind
string is `publish`. -/
theorem claim_c9_publish_variants_equivalent
    (rules : Option (List SrsConfDirective)) (ip : String) :
    do_check rules SrsRtmpConnType.SrsRtmpConnFMLEPublish ip =
      do_check rules SrsRtmpConnType.SrsRtmpConnFlashPublish ip ∧
    do_check rules SrsRtmpConnType.SrsRtmpConnFlashPublish ip =
      do_check rules SrsRtmpConnType.SrsRtmpConnHaivisionPublish ip ∧
    (∀ a : String,
      kindMatches SrsRtmpConnType.SrsRtmpConnFMLEPublish a = (a == "publish") ∧
      kindMatches SrsRtmpConnType.SrsRtmpConnFlashPublish a = (a == "publish") ∧
      kindMatches SrsRtmpConnType.SrsRtmpConnHaivisionPublish a = (a == "publish")) :=
  ⟨do_check_congr _ _ kindMatches_fmle_eq_flash rules ip,
    do_check_congr _ _ kindMatches_flash_eq_haivision rules ip,
    fun _ => ⟨rfl, rfl, rfl⟩⟩

/-- Claim C10: for a connection of kind `SrsRtmpConnUnknown`, no rule
matches in either scan, so — over rule sets made of allow/deny
directives — the decision is DENY exactly when the set contains an
allow rule or is empty, and ALLOW in every deny-only configuration. -/
theorem claim_c10_unknown_kind (rs : List SrsConfDirective) (ip : String)
    (h : ∀ r ∈ rs, r.name = "allow" ∨ r.name = "deny") :
    deny_check rs SrsRtmpConnType.SrsRtmpConnUnknown ip = SrsError.success ∧
    (do_check (some rs) SrsRtmpConnType.SrsRtmpConnUnknown ip ≠
        SrsError.success ↔
      ((∃ r ∈ rs, r.name = "allow") ∨ rs = [])) := by
  have hdeny' : ∀ r ∈ rs,
      isDenyMatch SrsRtmpConnType.SrsRtmpConnUnknown ip r = false := by
    intro r _
    simp [isDenyMatch, kindMatches]
  have hno : ¬ ∃ r ∈ rs,
      isAllowMatch SrsRtmpConnType.SrsRtmpConnUnknown ip r = true := by
    rintro ⟨r, _, hm⟩
    simp [isAllowMatch, kindMatches] at hm
  constructor
  · exact (deny_check_success_iff rs _ ip).mpr hdeny'
  · rw [Ne, do_check_some_success_iff, allow_check_success_iff]
    constructor
    · intro hne
      by_cases hA : 0 < countAllow rs
      · exact Or.inl ((countAllow_pos_iff rs).mp hA)
      · have hA0 : countAllow rs = 0 := by omega
        have hD0 : countDeny rs = 0 := by
          by_contra hD
          exact hne (Or.inr ⟨hA0, by omega⟩)
        exact Or.inr (nil_of_counts_zero rs h hA0 hD0)
    · rintro (⟨r, hr, hname⟩ | rfl)
      · intro hcon
        rcases hcon with hex | ⟨hA0, _⟩
        · exact hno hex
        · have := (countAllow_pos_iff rs).mpr ⟨r, hr, hname⟩
          omega
      · intro hcon
        rcases hcon with hex | ⟨_, hD⟩
        · exact hno hex
        · simp [countDeny] at hD

theorem claim_c10_witness :
    (∀ r ∈ [(⟨"deny", "play", "all"⟩ : SrsConfDirective)],
      r.name = "allow" ∨ r.name = "deny") ∧
    deny_check [⟨"deny", "play", "all"⟩]
      SrsRtmpConnType.SrsRtmpConnUnknown "1.2.3.4" = SrsError.success ∧
    (do_check (some [⟨"deny", "play", "all"⟩])
        SrsRtmpConnType.SrsRtmpConnUnknown "1.2.3.4" ≠ SrsError.success ↔
      ((∃ r ∈ [(⟨"deny", "play", "all"⟩ : SrsConfDirective)],
          r.name = "allow") ∨
        [(⟨"deny", "play", "all"⟩ : SrsConfDirective)] = [])) :=
  ⟨by decide, (claim_c10_unknown_kind _ _ (by decide)).1,
    (claim_c10_unknown_kind _ _ (by decide)).2⟩
